import Mathlib

/-!
Shallow embedding of the `us_interviewer` Telegram bot
(`src/app.py` and `src/src/agents.py`).

External effects (Telegram transport calls, the OpenAI transcription and
chat endpoints, file-system operations) are modelled by explicit outcome
parameters threaded through each handler: a `Bool` flag per transport call
(`true` = the awaited call returned, `false` = it raised an exception) and
an `Option String` per external AI call (`some t` = the call returned text
`t`, `none` = it raised).  Python `try`/`except` blocks become the
corresponding control-flow joins in the Lean definitions.
-/

namespace UsInterviewer

/-- Role tag of one dialogue turn (`"system"` / `"user"` / `"assistant"`
in the Python message dicts). -/
inductive Role where
  | system
  | user
  | assistant
deriving DecidableEq, Repr

/-- One element of `conversation_history`: a `{"role": ..., "content": ...}` dict. -/
structure Turn where
  role : Role
  content : String
deriving DecidableEq, Repr

/-- Per-user mutable state, `context.user_data` in `app.py`.
The Python dict keys are modelled as fields; an absent key is `false` /
`none` (Python `dict.get` returns a falsy `None`). -/
structure UserData where
  chatting : Bool := false
  initial_query : Option String := none
  warning_msg_id : Option Nat := none
  unsupported_warning_msg_id : Option Nat := none
deriving DecidableEq, Repr

/-- Whether an inbound-event handler returned normally or let an exception
escape to the application-level `error_handler`. -/
inductive Outcome where
  | normal
  | escaped
deriving DecidableEq, Repr

/-- Observable result of running one inbound-event handler:
final per-user state, final global `conversation_history`, the number of
transcription-endpoint invocations, the queries passed to `chat`, the
full histories sent to the language model, the texts successfully sent to
the user, temp-file bookkeeping, the `processed_successfully` flag of
`handle_audio`, a count of exceptions swallowed by inner `try`/`except`
blocks around notice cleanup, and the handler outcome. -/
structure HandlerResult where
  ud : UserData
  hist : List Turn
  transcribeCalls : Nat := 0
  chatCalls : List String := []
  modelInputs : List (List Turn) := []
  sent : List String := []
  fileCreated : Bool := false
  fileOnDisk : Bool := false
  processed : Bool := false
  swallowed : Nat := 0
  outcome : Outcome := .normal
deriving Repr

/-- Python truthiness of an optional string (`None` and `""` are falsy). -/
def strTruthy : Option String → Bool
  | none => false
  | some s => !s.isEmpty

/-- `extension_map` of `handle_audio` (`app.py` lines 191-197). -/
def extension_map : String → Option String
  | "audio/mpeg" => some ".mp3"
  | "audio/ogg" => some ".ogg"
  | "audio/mp4" => some ".m4a"
  | "audio/x-m4a" => some ".m4a"
  | "audio/wav" => some ".wav"
  | _ => none

/-- The fixed system instruction of `prepare_conversation` (`agents.py`).
Only its identity matters for the session-level claims, so the constant
abbreviates the full literal text. -/
def system_message : String :=
  "You are a US embassy expert interview officer assistant. Based on the following interview transcript, summarize and answer any questions the user has about the interview."

/-- The greeting `prepare_conversation` installs as the first assistant turn. -/
def greeting_message : String := "Ask anything about interview..."

/-- The user-role context turn built from the transcript in
`prepare_conversation`. -/
def transcriptTurn (transcript : String) : Turn :=
  ⟨.user, "Interview transcript as the context: \n" ++ transcript⟩

/-- The three-turn history `prepare_conversation` assigns to the global
`conversation_history` after a successful transcription. -/
def initialDialogue (transcript : String) : List Turn :=
  [⟨.system, system_message⟩, transcriptTurn transcript, ⟨.assistant, greeting_message⟩]

/-- `prepare_conversation` (`agents.py` lines 15-54): transcribe, then
overwrite the global history with the three fixed turns.  `transcription =
none` models `transcribe_audio` raising, in which case the assignment to
`conversation_history` is never reached. -/
def prepare_conversation (transcription : Option String) (hist : List Turn) :
    List Turn × Bool :=
  match transcription with
  | none => (hist, false)
  | some t => (initialDialogue t, true)

/-- The user turn `chat` appends for a query (`agents.py` lines 70-73). -/
def mkUserQuery (q : String) : Turn :=
  ⟨.user, "Here is user query: \n" ++ q⟩

/-- `chat` (`agents.py` lines 57-99).  The user turn is appended to the
history *before* the model call; `modelReply = none` models
`client.responses.create` raising, `some t` a response whose
`output_text` is `t`.  Returns the new history, the reply (or `none` on
failure), and the exact history passed as `input` to the model. -/
def chat (hist : List Turn) (q : String) (modelReply : Option String) :
    List Turn × Option String × List Turn :=
  let hist1 := hist ++ [mkUserQuery q]
  match modelReply with
  | some t => (hist1 ++ [⟨.assistant, t⟩], some t, hist1)
  | none => (hist1, none, hist1)

/-- `/new` command handler (`app.py` lines 60-72): `context.user_data.clear()`.
The global `conversation_history` is not touched. -/
def new_handler (_ud : UserData) (hist : List Turn) : UserData × List Turn :=
  ({}, hist)

/- Outbound notification texts of `app.py` (abbreviating the Russian
literals by transliterated tags; only their identity matters). -/

def msgUnsupportedFmt : String := "Nepodderzhivaemyj format audio."
def msgReceived : String := "Audio polucheno. Obrabatyvayu..."
def msgProcessingQuery : String := "Audio obrabotano. Obrabatyvayu vash zapros..."
def msgReady : String := "Audio obrabotano. Mozhete zadavat voprosy."
def msgQueryError : String := "Proizoshla oshibka pri obrabotke vashego zaprosa."
def msgAudioError : String := "Proizoshla oshibka pri obrabotke audio."
def msgVoiceError : String := "Proizoshla oshibka pri obrabotke golosovogo zaprosa."
def msgProcessing : String := "Obrabatyvayu vash zapros..."
def msgWarning : String := "Audio eshchyo ne polucheno. Vash zapros sokhranyon i budet obrabotan posle polucheniya audio."

/-- Outcomes of the external calls made while `handle_audio`
(`app.py` lines 158-302) processes one audio event.  `mime` and `caption`
are the inbound message's attributes; each `_ok` flag tells whether the
corresponding awaited transport call returned (`false` = raised);
`transcription` / `chatModel` are the results of the two AI endpoints
(`none` = the call raised). -/
structure AudioEnv where
  hasMedia : Bool := true
  mime : String
  caption : Option String := none
  getFile_ok : Bool := true
  sendUnsupportedFmt_ok : Bool := true
  download_ok : Bool := true
  deleteUnsupWarn_ok : Bool := true
  sendStatus_ok : Bool := true
  transcription : Option String
  deleteStatus_ok : Bool := true
  deleteWarn_ok : Bool := true
  sendQueryStatus_ok : Bool := true
  chatModel : Option String := none
  deleteQueryStatus_ok : Bool := true
  sendResponse_ok : Bool := true
  sendReady_ok : Bool := true
  sendChatErr_ok : Bool := true
  sendAudioErr_ok : Bool := true
  remove_ok : Bool := true
deriving Repr

/-- The state accumulated by `handle_audio` up to the point where an
exception is raised or the `try` body completes. -/
structure AudioPartial where
  ud : UserData
  hist : List Turn
  transcribeCalls : Nat := 0
  chatCalls : List String := []
  modelInputs : List (List Turn) := []
  sent : List String := []
  fileCreated : Bool := false
  swallowed : Nat := 0
deriving Repr

/-- The outer `except` of `handle_audio` (lines 289-294) followed by its
`finally` (lines 295-302): send a generic error notice (its own failure
escapes the handler), and since `processed_successfully` is `False` the
temp file is never removed. -/
def audioFail (env : AudioEnv) (p : AudioPartial) : HandlerResult :=
  { ud := p.ud, hist := p.hist, transcribeCalls := p.transcribeCalls,
    chatCalls := p.chatCalls, modelInputs := p.modelInputs,
    sent := if env.sendAudioErr_ok then p.sent ++ [msgAudioError] else p.sent,
    fileCreated := p.fileCreated, fileOnDisk := p.fileCreated,
    processed := false, swallowed := p.swallowed,
    outcome := if env.sendAudioErr_ok then .normal else .escaped }

/-- Normal completion of `handle_audio`'s `try` body followed by the
`finally` block: the temp file is removed only when
`processed_successfully` is set and `os.remove` does not raise (a raise
there is swallowed). -/
def audioFinish (env : AudioEnv) (p : AudioPartial) (processed : Bool) : HandlerResult :=
  { ud := p.ud, hist := p.hist, transcribeCalls := p.transcribeCalls,
    chatCalls := p.chatCalls, modelInputs := p.modelInputs, sent := p.sent,
    fileCreated := p.fileCreated,
    fileOnDisk := p.fileCreated && !(processed && env.remove_ok),
    processed := processed,
    swallowed := p.swallowed +
      (if processed && p.fileCreated && !env.remove_ok then 1 else 0),
    outcome := .normal }

/-- The inner `except` around the initial-query chat (lines 272-277): send
a query-error notice; if that send itself raises, the exception reaches
the outer `except`.  On delivery, control falls through to lines 286-287,
so chat mode is still enabled and `initial_query` popped, with
`processed_successfully` left `False`. -/
def audioChatErrJoin (env : AudioEnv) (p : AudioPartial) : HandlerResult :=
  if env.sendChatErr_ok then
    audioFinish env { p with sent := p.sent ++ [msgQueryError],
                             ud := { p.ud with chatting := true, initial_query := none } } false
  else
    audioFail env p

/-- `handle_audio` lines 240-287: after a successful transcription has
reset the history to `hist1` and the status message has been deleted,
resolve the pending query (caption takes precedence over the queued
`initial_query`), run `chat` on it if present, and enable chat mode.
`ud1` is the user state at that point and `sw1` the count of exceptions
already swallowed. -/
def handle_audio_pending (env : AudioEnv) (ud1 : UserData) (hist1 : List Turn)
    (sw1 : Nat) : HandlerResult :=
  let pending := if strTruthy env.caption then env.caption else ud1.initial_query
  if strTruthy pending then
    let q := pending.getD ""
    let sw2 := sw1 +
      (if ud1.warning_msg_id.isSome && !env.deleteWarn_ok then 1 else 0)
    let ud2 := { ud1 with warning_msg_id := none, initial_query := pending }
    if !env.sendQueryStatus_ok then
      audioFail env
        { ud := ud2, hist := hist1, transcribeCalls := 1,
          sent := [msgReceived], fileCreated := true, swallowed := sw2 }
    else
      let c := chat hist1 q env.chatModel
      let p : AudioPartial :=
        { ud := ud2, hist := c.1, transcribeCalls := 1,
          chatCalls := [q], modelInputs := [c.2.2],
          sent := [msgReceived, msgProcessingQuery],
          fileCreated := true, swallowed := sw2 }
      match c.2.1 with
      | some rtext =>
        if !env.deleteQueryStatus_ok then
          audioChatErrJoin env p
        else if !env.sendResponse_ok then
          audioChatErrJoin env p
        else
          audioFinish env
            { p with
              sent := [msgReceived, msgProcessingQuery, rtext],
              ud := { ud2 with chatting := true, initial_query := none } }
            true
      | none => audioChatErrJoin env p
  else
    if !env.sendReady_ok then
      audioFail env
        { ud := ud1, hist := hist1, transcribeCalls := 1,
          sent := [msgReceived], fileCreated := true, swallowed := sw1 }
    else
      audioFinish env
        { ud := { ud1 with chatting := true, initial_query := none },
          hist := hist1, transcribeCalls := 1,
          sent := [msgReceived, msgReady],
          fileCreated := true, swallowed := sw1 }
        true

/-- `handle_audio` (`app.py` lines 158-302): the interview-audio path. -/
def handle_audio (env : AudioEnv) (ud : UserData) (hist : List Turn) : HandlerResult :=
  if !env.hasMedia then
    { ud := ud, hist := hist }
  else if !env.getFile_ok then
    audioFail env { ud := ud, hist := hist }
  else
    match extension_map env.mime with
    | none =>
      if env.sendUnsupportedFmt_ok then
        { ud := ud, hist := hist, sent := [msgUnsupportedFmt] }
      else
        audioFail env { ud := ud, hist := hist }
    | some _ext =>
      if !env.download_ok then
        audioFail env { ud := ud, hist := hist, fileCreated := true }
      else
        let sw1 : Nat :=
          if ud.unsupported_warning_msg_id.isSome && !env.deleteUnsupWarn_ok then 1 else 0
        let ud1 := { ud with unsupported_warning_msg_id := none }
        if !env.sendStatus_ok then
          audioFail env { ud := ud1, hist := hist, fileCreated := true, swallowed := sw1 }
        else
          match env.transcription with
          | none =>
            audioFail env
              { ud := ud1, hist := hist, transcribeCalls := 1,
                sent := [msgReceived], fileCreated := true, swallowed := sw1 }
          | some t =>
            let hist1 := initialDialogue t
            if !env.deleteStatus_ok then
              audioFail env
                { ud := ud1, hist := hist1, transcribeCalls := 1,
                  sent := [msgReceived], fileCreated := true, swallowed := sw1 }
            else
              handle_audio_pending env ud1 hist1 sw1

/-- Outcomes of the external calls made while `handle_text`
(`app.py` lines 304-357) processes one text event.  `msgId` is the
message id the transport assigns to the "waiting" warning notice. -/
structure TextEnv where
  msgId : Nat := 0
  sendProcessing_ok : Bool := true
  chatModel : Option String := none
  deleteProcessing_ok : Bool := true
  sendResponse_ok : Bool := true
  sendChatErr_ok : Bool := true
  sendWarning_ok : Bool := true
  editWarning_ok : Bool := true
deriving Repr

/-- The `except` around the chat call in `handle_text` (lines 328-333):
send a query-error notice.  `handle_text` has no enclosing `try`, so if
that send itself raises, the exception escapes the handler. -/
def textChatErrJoin (env : TextEnv) (p : AudioPartial) : HandlerResult :=
  if env.sendChatErr_ok then
    { ud := p.ud, hist := p.hist, chatCalls := p.chatCalls, modelInputs := p.modelInputs,
      sent := p.sent ++ [msgQueryError], swallowed := p.swallowed, outcome := .normal }
  else
    { ud := p.ud, hist := p.hist, chatCalls := p.chatCalls, modelInputs := p.modelInputs,
      sent := p.sent, swallowed := p.swallowed, outcome := .escaped }

/-- `handle_text` (`app.py` lines 304-357): in chat mode run `chat`
immediately; otherwise queue the text in `initial_query`
(newline-appended after the first one). -/
def handle_text (env : TextEnv) (ud : UserData) (hist : List Turn) (q : String) :
    HandlerResult :=
  if ud.chatting then
    if !env.sendProcessing_ok then
      { ud := ud, hist := hist, outcome := .escaped }
    else
      let c := chat hist q env.chatModel
      let p : AudioPartial :=
        { ud := ud, hist := c.1, chatCalls := [q], modelInputs := [c.2.2],
          sent := [msgProcessing] }
      match c.2.1 with
      | some rtext =>
        if !env.deleteProcessing_ok then textChatErrJoin env p
        else if !env.sendResponse_ok then textChatErrJoin env p
        else
          { ud := ud, hist := c.1, chatCalls := [q], modelInputs := [c.2.2],
            sent := [msgProcessing, rtext] }
      | none => textChatErrJoin env p
  else
    match ud.initial_query with
    | none =>
      let ud1 := { ud with initial_query := some q }
      if !env.sendWarning_ok then { ud := ud1, hist := hist, outcome := .escaped }
      else
        { ud := { ud1 with warning_msg_id := some env.msgId }, hist := hist,
          sent := [msgWarning] }
    | some s =>
      { ud := { ud with initial_query := some (s ++ "\n" ++ q) }, hist := hist,
        swallowed := if ud.warning_msg_id.isSome && !env.editWarning_ok then 1 else 0 }

/-- Outcomes of the external calls made while `handle_voice_query`
(`app.py` lines 359-426) processes one voice event in chat mode.
There is no MIME field here because `handle_voice_query` never inspects
the MIME type: it hardcodes the `.ogg` extension. -/
structure VoiceEnv where
  hasMedia : Bool := true
  getFile_ok : Bool := true
  download_ok : Bool := true
  transcription : Option String
  sendProcessing_ok : Bool := true
  chatModel : Option String := none
  deleteProcessing_ok : Bool := true
  sendResponse_ok : Bool := true
  sendChatErr_ok : Bool := true
  sendVoiceErr_ok : Bool := true
  remove_ok : Bool := true
deriving Repr

/-- The `finally` of `handle_voice_query` (lines 419-426): the temp file
is removed unconditionally — whether or not processing succeeded — with a
raise from `os.remove` swallowed. -/
def voiceFinish (env : VoiceEnv) (p : AudioPartial) (outc : Outcome) : HandlerResult :=
  { ud := p.ud, hist := p.hist, transcribeCalls := p.transcribeCalls,
    chatCalls := p.chatCalls, modelInputs := p.modelInputs, sent := p.sent,
    fileCreated := p.fileCreated,
    fileOnDisk := p.fileCreated && !env.remove_ok,
    processed := false,
    swallowed := p.swallowed + (if p.fileCreated && !env.remove_ok then 1 else 0),
    outcome := outc }

/-- The outer `except` of `handle_voice_query` (lines 413-418): send a
generic voice-error notice (its own failure escapes), then run the
`finally`. -/
def voiceFail (env : VoiceEnv) (p : AudioPartial) : HandlerResult :=
  if env.sendVoiceErr_ok then
    voiceFinish env { p with sent := p.sent ++ [msgVoiceError] } .normal
  else
    voiceFinish env p .escaped

/-- The inner `except` around the chat call in `handle_voice_query`
(lines 407-412): send a query-error notice; if that send raises, the
exception reaches the outer `except`. -/
def voiceChatErrJoin (env : VoiceEnv) (p : AudioPartial) : HandlerResult :=
  if env.sendChatErr_ok then
    voiceFinish env { p with sent := p.sent ++ [msgQueryError] } .normal
  else
    voiceFail env p

/-- `handle_voice_query` (`app.py` lines 359-426): the chat-mode voice
path.  Note there is no MIME validation and no mutation of
`context.user_data` anywhere in this handler. -/
def handle_voice_query (env : VoiceEnv) (ud : UserData) (hist : List Turn) :
    HandlerResult :=
  if !env.hasMedia then
    { ud := ud, hist := hist }
  else
    let p0 : AudioPartial := { ud := ud, hist := hist, fileCreated := true }
    if !env.getFile_ok then voiceFail env p0
    else if !env.download_ok then voiceFail env p0
    else
      match env.transcription with
      | none => voiceFail env { p0 with transcribeCalls := 1 }
      | some t =>
        if !env.sendProcessing_ok then
          voiceFail env { p0 with transcribeCalls := 1 }
        else
          let c := chat hist t env.chatModel
          let p : AudioPartial :=
            { p0 with
              hist := c.1, transcribeCalls := 1, chatCalls := [t],
              modelInputs := [c.2.2], sent := [msgProcessing] }
          match c.2.1 with
          | some rtext =>
            if !env.deleteProcessing_ok then voiceChatErrJoin env p
            else if !env.sendResponse_ok then voiceChatErrJoin env p
            else voiceFinish env { p with sent := [msgProcessing, rtext] } .normal
          | none => voiceChatErrJoin env p

/-- `combined_audio_handler` (`app.py` lines 135-142): dispatch on the
`chatting` flag. -/
def combined_audio_handler (aenv : AudioEnv) (venv : VoiceEnv)
    (ud : UserData) (hist : List Turn) : HandlerResult :=
  if ud.chatting then handle_voice_query venv ud hist
  else handle_audio aenv ud hist

/-- Application-level state: `context.user_data` is keyed by the
user/conversation identity, while `conversation_history` in `agents.py`
is one process-global list shared by everyone. -/
structure AppState where
  userData : Nat → UserData
  hist : List Turn

/-- Run `handle_audio` for identity `uid` against the app state. -/
def appHandleAudio (env : AudioEnv) (s : AppState) (uid : Nat) :
    AppState × HandlerResult :=
  let r := handle_audio env (s.userData uid) s.hist
  ({ userData := Function.update s.userData uid r.ud, hist := r.hist }, r)

/-- Run `handle_text` for identity `uid` against the app state. -/
def appHandleText (env : TextEnv) (s : AppState) (uid : Nat) (q : String) :
    AppState × HandlerResult :=
  let r := handle_text env (s.userData uid) s.hist q
  ({ userData := Function.update s.userData uid r.ud, hist := r.hist }, r)

/-- Deliver a sequence of freestanding text messages to one session,
foldling `handle_text`; returns the final per-user state, the final
history, and all chat queries issued along the way. -/
def sendTexts (env : TextEnv) (ud : UserData) (hist : List Turn) :
    List String → UserData × List Turn × List String
  | [] => (ud, hist, [])
  | q :: qs =>
    let r := handle_text env ud hist q
    let rest := sendTexts env r.ud r.hist qs
    (rest.1, rest.2.1, r.chatCalls ++ rest.2.2)

/-!
Model of the slice of Python's `difflib` used by `unknown_command`
(`app.py` lines 92-116): `difflib.get_close_matches(command,
AVAILABLE_COMMANDS, n=3, cutoff=0.6)`.  The `SequenceMatcher` here has no
junk function and both sequences are far below the 200-element autojunk
threshold, so `bjunk`/`bpopular` are empty and the two junk-extension
loops of `find_longest_match` never fire; only the non-junk extension
loops are modelled.
-/

namespace Difflib

/-- `b2j` entry: the positions of element `c` in `b`, in ascending order. -/
def positions (c : Char) (b : List Char) : List Nat :=
  (b.enum.filter (fun p => p.2 == c)).map Prod.fst

/-- One row (one value of `i`) of the chaining loop in
`SequenceMatcher.find_longest_match`: build `newj2len` from the previous
row's `j2len` and update the running best `(besti, bestj, bestsize)`.
The best is replaced only on a strictly larger chain length, scanning `j`
ascending, as in the source. -/
def flmRow (b : List Char) (blo bhi : Nat) (j2len : Nat → Nat) (i : Nat) (c : Char)
    (best : Nat × Nat × Nat) : (Nat × Nat × Nat) × (Nat → Nat) :=
  let js := (positions c b).filter (fun j => blo ≤ j && j < bhi)
  let chainLen := fun j => if j = 0 then 1 else j2len (j - 1) + 1
  let newj2len := js.foldl (fun f j => Function.update f j (chainLen j)) (fun _ => 0)
  let best' := js.foldl
    (fun bst j =>
      let k := chainLen j
      if k > bst.2.2 then (i + 1 - k, j + 1 - k, k) else bst)
    best
  (best', newj2len)

/-- The first while-loop after the chaining loop in `find_longest_match`:
extend the best block backwards over equal (non-junk) elements.  The
`fuel` argument makes the recursion structural; every step decrements
`besti`, so `besti` fuel always suffices. -/
def extendBack (a b : List Char) (alo blo : Nat) :
    Nat → Nat → Nat → Nat → Nat × Nat × Nat
  | 0, besti, bestj, bestsize => (besti, bestj, bestsize)
  | fuel + 1, besti, bestj, bestsize =>
    if alo < besti ∧ blo < bestj ∧ a.getD (besti - 1) ' ' = b.getD (bestj - 1) ' ' then
      extendBack a b alo blo fuel (besti - 1) (bestj - 1) (bestsize + 1)
    else (besti, bestj, bestsize)

/-- The second while-loop: extend the best block forwards over equal
(non-junk) elements; every step increments `bestsize` while staying below
`ahi`, so `ahi` fuel always suffices. -/
def extendFwd (a b : List Char) (ahi bhi : Nat) :
    Nat → Nat → Nat → Nat → Nat × Nat × Nat
  | 0, besti, bestj, bestsize => (besti, bestj, bestsize)
  | fuel + 1, besti, bestj, bestsize =>
    if besti + bestsize < ahi ∧ bestj + bestsize < bhi ∧
        a.getD (besti + bestsize) ' ' = b.getD (bestj + bestsize) ' ' then
      extendFwd a b ahi bhi fuel besti bestj (bestsize + 1)
    else (besti, bestj, bestsize)

/-- `SequenceMatcher.find_longest_match(alo, ahi, blo, bhi)` with an empty
junk set. -/
def find_longest_match (a b : List Char) (alo ahi blo bhi : Nat) :
    Nat × Nat × Nat :=
  let run := (List.range' alo (ahi - alo)).foldl
    (fun (st : (Nat × Nat × Nat) × (Nat → Nat)) i =>
      flmRow b blo bhi st.2 i (a.getD i ' ') st.1)
    ((alo, blo, 0), fun _ => 0)
  let m1 := extendBack a b alo blo run.1.1 run.1.1 run.1.2.1 run.1.2.2
  extendFwd a b ahi bhi ahi m1.1 m1.2.1 m1.2.2

/-- The recursive decomposition of `SequenceMatcher.get_matching_blocks`
(the source drives it with an explicit queue and then coalesces adjacent
blocks; coalescing preserves the total matched size, which is all
`ratio` consumes).  `fuel` bounds the recursion depth; every recursive
call strictly shrinks the ranges, so `a.length + b.length + 1` fuel is
always enough. -/
def matchingBlocksAux (a b : List Char) :
    Nat → Nat → Nat → Nat → Nat → List (Nat × Nat × Nat)
  | 0, _, _, _, _ => []
  | fuel + 1, alo, ahi, blo, bhi =>
    let m := find_longest_match a b alo ahi blo bhi
    if m.2.2 = 0 then []
    else
      matchingBlocksAux a b fuel alo m.1 blo m.2.1 ++ [m] ++
        matchingBlocksAux a b fuel (m.1 + m.2.2) ahi (m.2.1 + m.2.2) bhi

/-- `SequenceMatcher.get_matching_blocks`, including the zero-length
sentinel block `(la, lb, 0)`. -/
def get_matching_blocks (a b : List Char) : List (Nat × Nat × Nat) :=
  matchingBlocksAux a b (a.length + b.length + 1) 0 a.length 0 b.length ++
    [(a.length, b.length, 0)]

/-- An exact similarity ratio, represented unreduced as the fraction
`num / (den + 1)` (the denominator is stored minus one, so positivity is
structural and all comparisons are plain `Nat` cross-multiplications —
the idealization of the float arithmetic of `difflib`). -/
def Score : Type := Nat × Nat

/-- The rational value of a score. -/
def scoreQ (p : Score) : ℚ := (p.1 : ℚ) / ((p.2 : ℚ) + 1)

/-- `p < q` as fractions, by cross-multiplication. -/
def fracLt (p q : Score) : Bool := decide (p.1 * (q.2 + 1) < q.1 * (p.2 + 1))

/-- `p = q` as fractions, by cross-multiplication. -/
def fracEq (p q : Score) : Bool := decide (p.1 * (q.2 + 1) = q.1 * (p.2 + 1))

/-- `p ≤ q` as fractions, by cross-multiplication. -/
def fracLe (p q : Score) : Bool := decide (p.1 * (q.2 + 1) ≤ q.1 * (p.2 + 1))

/-- `difflib._calculate_ratio(matches, length)`: `2*matches/length`, and
`1.0` for empty input. -/
def calcRatioPair (nMatches length : Nat) : Score :=
  if length = 0 then (1, 0) else (2 * nMatches, length - 1)

/-- `SequenceMatcher.ratio()` for sequences `a`, `b`: twice the total
matched size over the total length, as an exact fraction. -/
def ratioPair (a b : List Char) : Score :=
  calcRatioPair ((get_matching_blocks a b).foldl (fun acc m => acc + m.2.2) 0)
    (a.length + b.length)

/-- `SequenceMatcher.ratio()` as a rational number. -/
def ratioOf (a b : List Char) : ℚ := scoreQ (ratioPair a b)

/-- `SequenceMatcher.quick_ratio()`: its availability-counting loop
computes the multiset-intersection size of the two sequences. -/
def quickRatioPair (a b : List Char) : Score :=
  calcRatioPair (a.dedup.foldl (fun acc c => acc + min (a.count c) (b.count c)) 0)
    (a.length + b.length)

/-- `SequenceMatcher.real_quick_ratio()`. -/
def realQuickRatioPair (a b : List Char) : Score :=
  calcRatioPair (min a.length b.length) (a.length + b.length)

/-- Descending comparison on `(score, word)` pairs, matching Python's
tuple comparison used by `heapq.nlargest`: higher score first, ties
broken by the lexicographically larger word. -/
def pairGe (x y : Score × String) : Bool :=
  fracLt y.1 x.1 || (fracEq x.1 y.1 && !(x.2 < y.2))

/-- Stable insertion into a descending-sorted list. -/
def insertDesc (x : Score × String) : List (Score × String) → List (Score × String)
  | [] => [x]
  | y :: ys => if pairGe x y then x :: y :: ys else y :: insertDesc x ys

/-- Stable descending sort; on the total order `pairGe` this agrees with
`heapq.nlargest`'s `sorted(..., reverse=True)` semantics. -/
def sortDesc : List (Score × String) → List (Score × String)
  | [] => []
  | x :: xs => insertDesc x (sortDesc xs)

/-- `heapq.nlargest(n, result)`. -/
def nlargest (n : Nat) (l : List (Score × String)) : List (Score × String) :=
  (sortDesc l).take n

/-- `difflib.get_close_matches(word, possibilities, n, cutoff)`. -/
def get_close_matches (word : String) (possibilities : List String)
    (n : Nat) (cutoff : Score) : List String :=
  let result := possibilities.filterMap (fun x =>
    let a := x.toList
    let b := word.toList
    if fracLe cutoff (realQuickRatioPair a b) && fracLe cutoff (quickRatioPair a b) &&
        fracLe cutoff (ratioPair a b) then
      some (ratioPair a b, x)
    else none)
  (nlargest n result).map Prod.snd

end Difflib

/-- `AVAILABLE_COMMANDS` (`app.py` line 48). -/
def AVAILABLE_COMMANDS : List String := ["start", "new", "help"]

/-- The cutoff `0.6` of `unknown_command`, as the exact fraction `3/5`
(`(3, 4)` encodes numerator `3`, denominator `4 + 1`). -/
def cutoffScore : Difflib.Score := (3, 4)

/-- The suggestion computation of `unknown_command` (`app.py` line 101):
`difflib.get_close_matches(command, AVAILABLE_COMMANDS, n=3, cutoff=0.6)`. -/
def unknown_command_suggestions (command : String) : List String :=
  Difflib.get_close_matches command AVAILABLE_COMMANDS 3 cutoffScore

/-! ### Helper lemmas -/

@[simp] lemma audioFail_ud (env : AudioEnv) (p : AudioPartial) :
    (audioFail env p).ud = p.ud := by
  simp [audioFail]

@[simp] lemma audioFail_hist (env : AudioEnv) (p : AudioPartial) :
    (audioFail env p).hist = p.hist := by
  simp [audioFail]

@[simp] lemma audioFail_transcribeCalls (env : AudioEnv) (p : AudioPartial) :
    (audioFail env p).transcribeCalls = p.transcribeCalls := by
  simp [audioFail]

@[simp] lemma audioFail_chatCalls (env : AudioEnv) (p : AudioPartial) :
    (audioFail env p).chatCalls = p.chatCalls := by
  simp [audioFail]

@[simp] lemma audioFail_fileCreated (env : AudioEnv) (p : AudioPartial) :
    (audioFail env p).fileCreated = p.fileCreated := by
  simp [audioFail]

@[simp] lemma audioFail_fileOnDisk (env : AudioEnv) (p : AudioPartial) :
    (audioFail env p).fileOnDisk = p.fileCreated := by
  simp [audioFail]

@[simp] lemma audioFail_processed (env : AudioEnv) (p : AudioPartial) :
    (audioFail env p).processed = false := by
  simp [audioFail]

@[simp] lemma audioFinish_ud (env : AudioEnv) (p : AudioPartial) (pr : Bool) :
    (audioFinish env p pr).ud = p.ud := by
  simp [audioFinish]

@[simp] lemma audioFinish_hist (env : AudioEnv) (p : AudioPartial) (pr : Bool) :
    (audioFinish env p pr).hist = p.hist := by
  simp [audioFinish]

@[simp] lemma audioFinish_transcribeCalls (env : AudioEnv) (p : AudioPartial) (pr : Bool) :
    (audioFinish env p pr).transcribeCalls = p.transcribeCalls := by
  simp [audioFinish]

@[simp] lemma audioFinish_chatCalls (env : AudioEnv) (p : AudioPartial) (pr : Bool) :
    (audioFinish env p pr).chatCalls = p.chatCalls := by
  simp [audioFinish]

@[simp] lemma audioFinish_fileCreated (env : AudioEnv) (p : AudioPartial) (pr : Bool) :
    (audioFinish env p pr).fileCreated = p.fileCreated := by
  simp [audioFinish]

@[simp] lemma audioFinish_fileOnDisk (env : AudioEnv) (p : AudioPartial) (pr : Bool) :
    (audioFinish env p pr).fileOnDisk = (p.fileCreated && !(pr && env.remove_ok)) := by
  simp [audioFinish]

@[simp] lemma audioFinish_processed (env : AudioEnv) (p : AudioPartial) (pr : Bool) :
    (audioFinish env p pr).processed = pr := by
  simp [audioFinish]

@[simp] lemma audioFinish_modelInputs (env : AudioEnv) (p : AudioPartial) (pr : Bool) :
    (audioFinish env p pr).modelInputs = p.modelInputs := by
  simp [audioFinish]

@[simp] lemma audioFinish_sent (env : AudioEnv) (p : AudioPartial) (pr : Bool) :
    (audioFinish env p pr).sent = p.sent := by
  simp [audioFinish]

@[simp] lemma audioFinish_outcome (env : AudioEnv) (p : AudioPartial) (pr : Bool) :
    (audioFinish env p pr).outcome = .normal := by
  simp [audioFinish]

@[simp] lemma audioFail_modelInputs (env : AudioEnv) (p : AudioPartial) :
    (audioFail env p).modelInputs = p.modelInputs := by
  simp [audioFail]

lemma audioChatErrJoin_ud_chatting (env : AudioEnv) (p : AudioPartial) :
    (audioChatErrJoin env p).ud.chatting = (env.sendChatErr_ok || p.ud.chatting) := by
  unfold audioChatErrJoin
  split <;> simp_all

lemma audioChatErrJoin_hist (env : AudioEnv) (p : AudioPartial) :
    (audioChatErrJoin env p).hist = p.hist := by
  unfold audioChatErrJoin
  split <;> simp

lemma audioChatErrJoin_transcribeCalls (env : AudioEnv) (p : AudioPartial) :
    (audioChatErrJoin env p).transcribeCalls = p.transcribeCalls := by
  unfold audioChatErrJoin
  split <;> simp

lemma audioChatErrJoin_chatCalls (env : AudioEnv) (p : AudioPartial) :
    (audioChatErrJoin env p).chatCalls = p.chatCalls := by
  unfold audioChatErrJoin
  split <;> simp

lemma audioChatErrJoin_fileCreated (env : AudioEnv) (p : AudioPartial) :
    (audioChatErrJoin env p).fileCreated = p.fileCreated := by
  unfold audioChatErrJoin
  split <;> simp

lemma audioChatErrJoin_processed (env : AudioEnv) (p : AudioPartial) :
    (audioChatErrJoin env p).processed = false := by
  unfold audioChatErrJoin
  split <;> simp

lemma audioChatErrJoin_fileOnDisk (env : AudioEnv) (p : AudioPartial) :
    (audioChatErrJoin env p).fileOnDisk = p.fileCreated := by
  unfold audioChatErrJoin
  split <;> simp

/-- All user-visible components of a handler result: everything except the
internal count of swallowed exceptions. -/
def observables (r : HandlerResult) :
    UserData × List Turn × Nat × List String × List (List Turn) × List String ×
      Bool × Bool × Bool × Outcome :=
  (r.ud, r.hist, r.transcribeCalls, r.chatCalls, r.modelInputs, r.sent,
    r.fileCreated, r.fileOnDisk, r.processed, r.outcome)

section ItePush

variable (c : Prop) [Decidable c] (a b : HandlerResult)

@[simp] lemma ite_hr_ud : (if c then a else b).ud = if c then a.ud else b.ud :=
  apply_ite HandlerResult.ud c a b

@[simp] lemma ite_hr_hist : (if c then a else b).hist = if c then a.hist else b.hist :=
  apply_ite HandlerResult.hist c a b

@[simp] lemma ite_hr_transcribeCalls :
    (if c then a else b).transcribeCalls = if c then a.transcribeCalls else b.transcribeCalls :=
  apply_ite HandlerResult.transcribeCalls c a b

@[simp] lemma ite_hr_chatCalls :
    (if c then a else b).chatCalls = if c then a.chatCalls else b.chatCalls :=
  apply_ite HandlerResult.chatCalls c a b

@[simp] lemma ite_hr_modelInputs :
    (if c then a else b).modelInputs = if c then a.modelInputs else b.modelInputs :=
  apply_ite HandlerResult.modelInputs c a b

@[simp] lemma ite_hr_sent : (if c then a else b).sent = if c then a.sent else b.sent :=
  apply_ite HandlerResult.sent c a b

@[simp] lemma ite_hr_fileCreated :
    (if c then a else b).fileCreated = if c then a.fileCreated else b.fileCreated :=
  apply_ite HandlerResult.fileCreated c a b

@[simp] lemma ite_hr_fileOnDisk :
    (if c then a else b).fileOnDisk = if c then a.fileOnDisk else b.fileOnDisk :=
  apply_ite HandlerResult.fileOnDisk c a b

@[simp] lemma ite_hr_processed :
    (if c then a else b).processed = if c then a.processed else b.processed :=
  apply_ite HandlerResult.processed c a b

@[simp] lemma ite_hr_outcome :
    (if c then a else b).outcome = if c then a.outcome else b.outcome :=
  apply_ite HandlerResult.outcome c a b

@[simp] lemma ite_hr_observables :
    observables (if c then a else b) = if c then observables a else observables b :=
  apply_ite observables c a b

end ItePush

@[simp] lemma voiceFinish_ud (env : VoiceEnv) (p : AudioPartial) (oc : Outcome) :
    (voiceFinish env p oc).ud = p.ud := by
  simp [voiceFinish]

@[simp] lemma voiceFinish_hist (env : VoiceEnv) (p : AudioPartial) (oc : Outcome) :
    (voiceFinish env p oc).hist = p.hist := by
  simp [voiceFinish]

@[simp] lemma voiceFinish_transcribeCalls (env : VoiceEnv) (p : AudioPartial) (oc : Outcome) :
    (voiceFinish env p oc).transcribeCalls = p.transcribeCalls := by
  simp [voiceFinish]

@[simp] lemma voiceFinish_fileCreated (env : VoiceEnv) (p : AudioPartial) (oc : Outcome) :
    (voiceFinish env p oc).fileCreated = p.fileCreated := by
  simp [voiceFinish]

@[simp] lemma voiceFinish_fileOnDisk (env : VoiceEnv) (p : AudioPartial) (oc : Outcome) :
    (voiceFinish env p oc).fileOnDisk = (p.fileCreated && !env.remove_ok) := by
  simp [voiceFinish]

lemma voiceFail_ud (env : VoiceEnv) (p : AudioPartial) :
    (voiceFail env p).ud = p.ud := by
  unfold voiceFail
  split <;> simp

lemma voiceFail_fileCreated (env : VoiceEnv) (p : AudioPartial) :
    (voiceFail env p).fileCreated = p.fileCreated := by
  unfold voiceFail
  split <;> simp

lemma voiceFail_fileOnDisk (env : VoiceEnv) (p : AudioPartial) :
    (voiceFail env p).fileOnDisk = (p.fileCreated && !env.remove_ok) := by
  unfold voiceFail
  split <;> simp

lemma voiceFail_transcribeCalls (env : VoiceEnv) (p : AudioPartial) :
    (voiceFail env p).transcribeCalls = p.transcribeCalls := by
  unfold voiceFail
  split <;> simp

lemma voiceChatErrJoin_ud (env : VoiceEnv) (p : AudioPartial) :
    (voiceChatErrJoin env p).ud = p.ud := by
  unfold voiceChatErrJoin
  split <;> simp [voiceFail_ud]

lemma voiceChatErrJoin_fileCreated (env : VoiceEnv) (p : AudioPartial) :
    (voiceChatErrJoin env p).fileCreated = p.fileCreated := by
  unfold voiceChatErrJoin
  split <;> simp [voiceFail_fileCreated]

lemma voiceChatErrJoin_fileOnDisk (env : VoiceEnv) (p : AudioPartial) :
    (voiceChatErrJoin env p).fileOnDisk = (p.fileCreated && !env.remove_ok) := by
  unfold voiceChatErrJoin
  split <;> simp [voiceFail_fileOnDisk]

lemma voiceChatErrJoin_transcribeCalls (env : VoiceEnv) (p : AudioPartial) :
    (voiceChatErrJoin env p).transcribeCalls = p.transcribeCalls := by
  unfold voiceChatErrJoin
  split <;> simp [voiceFail_transcribeCalls]

/-- `handle_voice_query` never mutates the per-user state: in particular
the `chatting` phase flag is never changed by the voice-query path. -/
lemma handle_voice_query_ud (env : VoiceEnv) (ud : UserData) (hist : List Turn) :
    (handle_voice_query env ud hist).ud = ud := by
  unfold handle_voice_query
  rcases htr : env.transcription with _ | t <;>
    rcases hcm : env.chatModel with _ | rt <;>
    simp [*, chat, voiceFail_ud, voiceChatErrJoin_ud]

/-- Whenever `handle_voice_query` creates the temp file (that is, whenever
the event carries media), the file is on disk at the end exactly when the
unconditional `os.remove` in the `finally` block failed — independent of
whether processing succeeded. -/
lemma handle_voice_query_file (env : VoiceEnv) (ud : UserData) (hist : List Turn)
    (h : env.hasMedia = true) :
    (handle_voice_query env ud hist).fileCreated = true ∧
    (handle_voice_query env ud hist).fileOnDisk = !env.remove_ok := by
  unfold handle_voice_query
  rcases htr : env.transcription with _ | t <;>
    rcases hcm : env.chatModel with _ | rt <;>
    simp [*, chat, voiceFail_fileCreated, voiceFail_fileOnDisk,
      voiceChatErrJoin_fileCreated, voiceChatErrJoin_fileOnDisk]

set_option maxHeartbeats 1000000 in
/-- Whatever the transport outcomes, the post-transcription stage only
ever appends to the freshly initialized history. -/
lemma pending_hist (env : AudioEnv) (ud1 : UserData) (hist1 : List Turn) (sw1 : Nat) :
    ∃ rest, (handle_audio_pending env ud1 hist1 sw1).hist = hist1 ++ rest := by
  unfold handle_audio_pending
  rcases hcm : env.chatModel with _ | rt <;>
    by_cases hcap : strTruthy env.caption <;>
    by_cases hiq : strTruthy ud1.initial_query <;>
    simp only [hcap, hiq, if_true, if_false, Bool.not_eq_true] <;>
    split_ifs <;>
    simp [*, chat, audioChatErrJoin_hist]

set_option maxHeartbeats 1000000 in
/-- The post-transcription stage always records exactly one transcription
call and a created temp file, and the file is on disk at the end iff the
run was not marked processed or the removal failed. -/
lemma pending_core (env : AudioEnv) (ud1 : UserData) (hist1 : List Turn) (sw1 : Nat) :
    (handle_audio_pending env ud1 hist1 sw1).transcribeCalls = 1 ∧
    (handle_audio_pending env ud1 hist1 sw1).fileCreated = true ∧
    (handle_audio_pending env ud1 hist1 sw1).fileOnDisk =
      !((handle_audio_pending env ud1 hist1 sw1).processed && env.remove_ok) := by
  unfold handle_audio_pending
  rcases hcm : env.chatModel with _ | rt <;>
    by_cases hcap : strTruthy env.caption <;>
    by_cases hiq : strTruthy ud1.initial_query <;>
    simp only [hcap, hiq, if_true, if_false, Bool.not_eq_true] <;>
    split_ifs <;>
    (simp [*, chat, audioChatErrJoin_transcribeCalls, audioChatErrJoin_fileCreated,
        audioChatErrJoin_fileOnDisk, audioChatErrJoin_processed] <;>
      simp_all)

set_option maxHeartbeats 1000000 in
/-- If the transcription call fails (raises), `handle_audio` leaves the
semantic session state — phase flag, pending query, dialogue — unchanged. -/
lemma handle_audio_trFail (env : AudioEnv) (ud : UserData) (hist : List Turn)
    (h : env.transcription = none) :
    (handle_audio env ud hist).ud.chatting = ud.chatting ∧
    (handle_audio env ud hist).ud.initial_query = ud.initial_query ∧
    (handle_audio env ud hist).hist = hist := by
  obtain ⟨hm, mime, cap, gf, su, dl, duw, ss, tr, ds, dw, sqs, cm, dqs, sr, srd, sce, sae, rm⟩ := env
  simp only at h
  subst h
  cases hm <;> cases gf <;> cases su <;> cases dl <;> cases ss <;>
    rcases hx : extension_map mime with _ | e <;>
    simp [handle_audio, hx]

set_option maxHeartbeats 1000000 in
/-- If the MIME type is outside the extension map, `handle_audio` never
reaches the transcription call and never changes the phase flag. -/
lemma handle_audio_mimeFail (env : AudioEnv) (ud : UserData) (hist : List Turn)
    (h : extension_map env.mime = none) :
    (handle_audio env ud hist).transcribeCalls = 0 ∧
    (handle_audio env ud hist).ud.chatting = ud.chatting ∧
    (handle_audio env ud hist).hist = hist := by
  obtain ⟨hm, mime, cap, gf, su, dl, duw, ss, tr, ds, dw, sqs, cm, dqs, sr, srd, sce, sae, rm⟩ := env
  simp only at h
  cases hm <;> cases gf <;> cases su <;>
    simp [handle_audio, h]

lemma pending_transcribeCalls (env : AudioEnv) (ud1 : UserData) (hist1 : List Turn)
    (sw1 : Nat) : (handle_audio_pending env ud1 hist1 sw1).transcribeCalls = 1 :=
  (pending_core env ud1 hist1 sw1).1

lemma pending_fileCreated (env : AudioEnv) (ud1 : UserData) (hist1 : List Turn)
    (sw1 : Nat) : (handle_audio_pending env ud1 hist1 sw1).fileCreated = true :=
  (pending_core env ud1 hist1 sw1).2.1

lemma pending_fileOnDisk (env : AudioEnv) (ud1 : UserData) (hist1 : List Turn)
    (sw1 : Nat) :
    (handle_audio_pending env ud1 hist1 sw1).fileOnDisk =
      !((handle_audio_pending env ud1 hist1 sw1).processed && env.remove_ok) :=
  (pending_core env ud1 hist1 sw1).2.2

set_option maxHeartbeats 2000000 in
/-- Chat mode can be switched on by `handle_audio` only when the
transcription succeeded, and then the final dialogue extends the freshly
reinitialized three-turn dialogue for that transcript. -/
lemma handle_audio_chatting (env : AudioEnv) (ud : UserData) (hist : List Turn) :
    (handle_audio env ud hist).ud.chatting = true →
    ud.chatting = true ∨
      ∃ t, env.transcription = some t ∧
        ∃ rest, (handle_audio env ud hist).hist = initialDialogue t ++ rest := by
  rcases htr : env.transcription with _ | t
  · intro h
    exact Or.inl (((handle_audio_trFail env ud hist htr).1).symm.trans h)
  · unfold handle_audio
    by_cases h1 : env.hasMedia <;>
    by_cases h2 : env.getFile_ok <;>
    by_cases h3 : env.download_ok <;>
    by_cases h4 : env.sendStatus_ok <;>
    by_cases h5 : env.deleteStatus_ok <;>
    by_cases h6 : env.sendUnsupportedFmt_ok <;>
    rcases hx : extension_map env.mime with _ | e <;>
    simp [*] <;>
    first
      | (intro h; exact Or.inl h)
      | (intro h; exact Or.inr (pending_hist _ _ _ _))

set_option maxHeartbeats 2000000 in
/-- Temp-file lifecycle invariant of the interview-audio path: the file is
left on disk at the end exactly when it was created and either the run was
not marked `processed_successfully` or the removal itself failed. -/
lemma handle_audio_file (env : AudioEnv) (ud : UserData) (hist : List Turn) :
    (handle_audio env ud hist).fileOnDisk =
      ((handle_audio env ud hist).fileCreated &&
        !((handle_audio env ud hist).processed && env.remove_ok)) := by
  unfold handle_audio
  by_cases h1 : env.hasMedia <;>
  by_cases h2 : env.getFile_ok <;>
  by_cases h3 : env.download_ok <;>
  by_cases h4 : env.sendStatus_ok <;>
  by_cases h5 : env.deleteStatus_ok <;>
  by_cases h6 : env.sendUnsupportedFmt_ok <;>
  rcases hx : extension_map env.mime with _ | e <;>
  rcases htr : env.transcription with _ | t <;>
  simp [*, pending_fileCreated, pending_fileOnDisk]

set_option maxHeartbeats 2000000 in
/-- The interview-audio path creates the temp file before it can possibly
reach the transcription network call. -/
lemma handle_audio_transcribe_file (env : AudioEnv) (ud : UserData) (hist : List Turn) :
    1 ≤ (handle_audio env ud hist).transcribeCalls →
    (handle_audio env ud hist).fileCreated = true := by
  unfold handle_audio
  by_cases h1 : env.hasMedia <;>
  by_cases h2 : env.getFile_ok <;>
  by_cases h3 : env.download_ok <;>
  by_cases h4 : env.sendStatus_ok <;>
  by_cases h5 : env.deleteStatus_ok <;>
  by_cases h6 : env.sendUnsupportedFmt_ok <;>
  rcases hx : extension_map env.mime with _ | e <;>
  rcases htr : env.transcription with _ | t <;>
  simp [*, pending_fileCreated, pending_transcribeCalls]

lemma textChatErrJoin_ud (env : TextEnv) (p : AudioPartial) :
    (textChatErrJoin env p).ud = p.ud := by
  unfold textChatErrJoin
  split <;> simp

/-- `handle_text` never changes the phase flag. -/
lemma handle_text_chatting (env : TextEnv) (ud : UserData) (hist : List Turn) (q : String) :
    (handle_text env ud hist q).ud.chatting = ud.chatting := by
  unfold handle_text
  by_cases hc : ud.chatting <;>
    rcases hiq : ud.initial_query with _ | s <;>
    rcases hcm : env.chatModel with _ | rt <;>
    split_ifs <;>
    simp_all [chat, textChatErrJoin_ud]

set_option maxHeartbeats 2000000 in
/-- The post-transcription stage's user-visible result does not depend on
the outcome of the guarded warning-notice delete (`deleteWarn_ok`), on any
already-accumulated swallow count, or on any other field it never reads:
that delete's failure is swallowed. -/
lemma pending_guard (e₁ e₂ : AudioEnv) (ud1 : UserData) (hist1 : List Turn) (s₁ s₂ : Nat)
    (hcap : e₁.caption = e₂.caption)
    (hsqs : e₁.sendQueryStatus_ok = e₂.sendQueryStatus_ok)
    (hcm : e₁.chatModel = e₂.chatModel)
    (hdqs : e₁.deleteQueryStatus_ok = e₂.deleteQueryStatus_ok)
    (hsr : e₁.sendResponse_ok = e₂.sendResponse_ok)
    (hsrd : e₁.sendReady_ok = e₂.sendReady_ok)
    (hsce : e₁.sendChatErr_ok = e₂.sendChatErr_ok)
    (hsae : e₁.sendAudioErr_ok = e₂.sendAudioErr_ok)
    (hrm : e₁.remove_ok = e₂.remove_ok) :
    observables (handle_audio_pending e₁ ud1 hist1 s₁) =
    observables (handle_audio_pending e₂ ud1 hist1 s₂) := by
  obtain ⟨m1, mi1, cap1, gf1, su1, dl1, duw1, ss1, tr1, ds1, dw1, sqs1, cm1, dqs1, sr1, srd1, sce1, sae1, rm1⟩ := e₁
  obtain ⟨m2, mi2, cap2, gf2, su2, dl2, duw2, ss2, tr2, ds2, dw2, sqs2, cm2, dqs2, sr2, srd2, sce2, sae2, rm2⟩ := e₂
  simp only at hcap hsqs hcm hdqs hsr hsrd hsce hsae hrm
  subst hcap hsqs hcm hdqs hsr hsrd hsce hsae hrm
  unfold handle_audio_pending
  rcases hcmv : cm1 with _ | rt <;>
    by_cases hcapv : strTruthy cap1 <;>
    by_cases hiq : strTruthy ud1.initial_query <;>
    simp only [hcmv, hcapv, hiq, if_true, if_false, Bool.not_eq_true] <;>
    split_ifs <;>
    simp_all [chat, observables, audioFail, audioFinish, audioChatErrJoin]

set_option maxHeartbeats 4000000 in
/-- The user-visible result of `handle_audio` is independent of the
outcomes of the two guarded notice deletes (the unsupported-file warning
and the pending-query warning): those transport failures are swallowed
silently. -/
lemma handle_audio_guard (env : AudioEnv) (ud : UserData) (hist : List Turn)
    (b₁ c₁ b₂ c₂ : Bool) :
    observables (handle_audio
      { env with deleteUnsupWarn_ok := b₁, deleteWarn_ok := c₁ } ud hist) =
    observables (handle_audio
      { env with deleteUnsupWarn_ok := b₂, deleteWarn_ok := c₂ } ud hist) := by
  obtain ⟨hm, mime, cap, gf, su, dl, duw, ss, tr, ds, dw, sqs, cm, dqs, sr, srd, sce, sae, rm⟩ := env
  cases hm <;> cases gf <;> cases su <;> cases dl <;> cases ss <;> cases ds <;>
    rcases hx : extension_map mime with _ | e <;>
    rcases htr : tr with _ | t <;>
    simp only [handle_audio, hx, htr] <;>
    first
      | rfl
      | (simp [observables, audioFail]; done)
      | exact pending_guard _ _ _ _ _ _ rfl rfl rfl rfl rfl rfl rfl rfl rfl

set_option maxHeartbeats 2000000 in
/-- The user-visible result of `handle_text` is independent of the outcome
of the guarded warning-notice edit: that transport failure is swallowed
silently. -/
lemma handle_text_guard (env : TextEnv) (ud : UserData) (hist : List Turn) (q : String)
    (b₁ b₂ : Bool) :
    observables (handle_text { env with editWarning_ok := b₁ } ud hist q) =
    observables (handle_text { env with editWarning_ok := b₂ } ud hist q) := by
  obtain ⟨mid, sp, cm, dp, sr, sce, sw, ew⟩ := env
  unfold handle_text
  by_cases hc : ud.chatting <;>
    rcases hiq : ud.initial_query with _ | s <;>
    rcases hcmv : cm with _ | rt <;>
    split_ifs <;>
    simp_all [chat, textChatErrJoin, observables]

/-- When the unguarded delete of the processing-status message
(`app.py` line 238) raises, the exception reaches the outer `except`: a
generic audio-error notice is sent to the user (so the failure is not
silent) and chat mode is NOT enabled even though transcription succeeded. -/
lemma handle_audio_deleteStatus_fail (env : AudioEnv) (ud : UserData) (hist : List Turn)
    (t e : String)
    (h1 : env.hasMedia = true) (h2 : env.getFile_ok = true)
    (hx : extension_map env.mime = some e) (h3 : env.download_ok = true)
    (h4 : env.sendStatus_ok = true) (ht : env.transcription = some t)
    (h5 : env.deleteStatus_ok = false) (h6 : env.sendAudioErr_ok = true) :
    (handle_audio env ud hist).outcome = .normal ∧
    (handle_audio env ud hist).sent = [msgReceived, msgAudioError] ∧
    (handle_audio env ud hist).ud.chatting = ud.chatting ∧
    (handle_audio env ud hist).processed = false := by
  simp [handle_audio, audioFail, *]

lemma intercalate_go_foldl (qs : List String) : ∀ q : String,
    String.intercalate.go q "\n" qs = qs.foldl (fun a b => a ++ "\n" ++ b) q := by
  induction qs with
  | nil => intro q; rfl
  | cons x xs ih => intro q; simpa using ih (q ++ "\n" ++ x)

/-- Joining with newlines as the queueing code does (repeated
`s ++ "\n" ++ q`) computes `String.intercalate "\n"`. -/
lemma intercalate_eq_foldl (q : String) (qs : List String) :
    String.intercalate "\n" (q :: qs) = qs.foldl (fun a b => a ++ "\n" ++ b) q := by
  simpa [String.intercalate] using intercalate_go_foldl qs q

lemma append_newline_ne (a b : String) : a ++ "\n" ++ b ≠ "" := by
  intro h
  have hl := congrArg String.length h
  simp [String.length_append] at hl
  exact absurd hl.1.2 (by decide)

lemma foldl_join_ne (qs : List String) : ∀ q : String, q ≠ "" →
    qs.foldl (fun a b => a ++ "\n" ++ b) q ≠ "" := by
  induction qs with
  | nil => intro q hq; simpa using hq
  | cons x xs ih => intro q _; simpa using ih (q ++ "\n" ++ x) (append_newline_ne q x)

@[simp] lemma strTruthy_none : strTruthy none = false := rfl

lemma strTruthy_some (q : String) (hq : q ≠ "") : strTruthy (some q) = true := by
  simp only [strTruthy, Bool.not_eq_true']
  rw [Bool.eq_false_iff]
  intro h
  exact hq ((String.isEmpty_iff q).mp h)

/-- While not in chat mode, `handle_text` only queues: no chat call, no
history change, the text appended to `initial_query` (newline-separated
after the first). -/
lemma handle_text_queue (env : TextEnv) (ud : UserData) (hist : List Turn) (q : String)
    (hc : ud.chatting = false) :
    (handle_text env ud hist q).ud.chatting = false ∧
    (handle_text env ud hist q).hist = hist ∧
    (handle_text env ud hist q).chatCalls = [] ∧
    (handle_text env ud hist q).ud.initial_query =
      some (match ud.initial_query with
            | none => q
            | some s => s ++ "\n" ++ q) := by
  unfold handle_text
  rcases hiq : ud.initial_query with _ | s <;> split_ifs <;> simp_all

lemma sendTexts_queue (env : TextEnv) : ∀ (qs : List String) (ud : UserData)
    (hist : List Turn) (s : String), ud.chatting = false → ud.initial_query = some s →
    (sendTexts env ud hist qs).1.chatting = false ∧
    (sendTexts env ud hist qs).1.initial_query =
      some (qs.foldl (fun a b => a ++ "\n" ++ b) s) ∧
    (sendTexts env ud hist qs).2.1 = hist ∧
    (sendTexts env ud hist qs).2.2 = [] := by
  intro qs
  induction qs with
  | nil => intro ud hist s hc hiq; simp [sendTexts, hc, hiq]
  | cons x xs ih =>
    intro ud hist s hc hiq
    have hq := handle_text_queue env ud hist x hc
    rw [hiq] at hq
    have hrec := ih (handle_text env ud hist x).ud (handle_text env ud hist x).hist
      (s ++ "\n" ++ x) hq.1 hq.2.2.2
    simp only [sendTexts]
    refine ⟨hrec.1, ?_, ?_, ?_⟩
    · simpa using hrec.2.1
    · rw [hrec.2.2.1, hq.2.1]
    · rw [hrec.2.2.2, hq.2.2.1]
      simp

/-- Sending a nonempty sequence of freestanding texts to a fresh
`AWAITING_AUDIO` session queues exactly their newline-join, in arrival
order, without any chat call or history change. -/
lemma sendTexts_join (env : TextEnv) (ud : UserData) (hist : List Turn)
    (q : String) (qs : List String)
    (hc : ud.chatting = false) (hiq : ud.initial_query = none) :
    (sendTexts env ud hist (q :: qs)).1.chatting = false ∧
    (sendTexts env ud hist (q :: qs)).1.initial_query =
      some (String.intercalate "\n" (q :: qs)) ∧
    (sendTexts env ud hist (q :: qs)).2.1 = hist ∧
    (sendTexts env ud hist (q :: qs)).2.2 = [] := by
  have hq := handle_text_queue env ud hist q hc
  rw [hiq] at hq
  have hrec := sendTexts_queue env qs (handle_text env ud hist q).ud
    (handle_text env ud hist q).hist q hq.1 hq.2.2.2
  simp only [sendTexts]
  rw [intercalate_eq_foldl]
  refine ⟨hrec.1, hrec.2.1, ?_, ?_⟩
  · rw [hrec.2.2.1, hq.2.1]
  · rw [hrec.2.2.2, hq.2.2.1]
    simp

/-- Successful full run of `handle_audio` with a queued query and no
caption: one chat call on exactly the queued text. -/
lemma handle_audio_run_query (env : AudioEnv) (ud : UserData) (hist : List Turn)
    (q t r e : String)
    (hiq : ud.initial_query = some q) (hq : q ≠ "") (hcap : env.caption = none)
    (h1 : env.hasMedia = true) (h2 : env.getFile_ok = true)
    (hx : extension_map env.mime = some e) (h3 : env.download_ok = true)
    (h4 : env.sendStatus_ok = true) (ht : env.transcription = some t)
    (h5 : env.deleteStatus_ok = true) (h6 : env.sendQueryStatus_ok = true)
    (hcm : env.chatModel = some r) (h7 : env.deleteQueryStatus_ok = true)
    (h8 : env.sendResponse_ok = true) :
    (handle_audio env ud hist).chatCalls = [q] ∧
    (handle_audio env ud hist).ud.chatting = true ∧
    (handle_audio env ud hist).ud.initial_query = none ∧
    (handle_audio env ud hist).hist =
      initialDialogue t ++ [mkUserQuery q, ⟨.assistant, r⟩] ∧
    (handle_audio env ud hist).modelInputs = [initialDialogue t ++ [mkUserQuery q]] := by
  simp [handle_audio, handle_audio_pending, chat, strTruthy_some q hq, *]

/-- Successful full run of `handle_audio` with a caption: one chat call on
exactly the caption, whatever text was queued; the queue is cleared. -/
lemma handle_audio_run_caption (env : AudioEnv) (ud : UserData) (hist : List Turn)
    (c t r e : String)
    (hcap : env.caption = some c) (hc : c ≠ "")
    (h1 : env.hasMedia = true) (h2 : env.getFile_ok = true)
    (hx : extension_map env.mime = some e) (h3 : env.download_ok = true)
    (h4 : env.sendStatus_ok = true) (ht : env.transcription = some t)
    (h5 : env.deleteStatus_ok = true) (h6 : env.sendQueryStatus_ok = true)
    (hcm : env.chatModel = some r) (h7 : env.deleteQueryStatus_ok = true)
    (h8 : env.sendResponse_ok = true) :
    (handle_audio env ud hist).chatCalls = [c] ∧
    (handle_audio env ud hist).ud.chatting = true ∧
    (handle_audio env ud hist).ud.initial_query = none ∧
    (handle_audio env ud hist).hist =
      initialDialogue t ++ [mkUserQuery c, ⟨.assistant, r⟩] := by
  simp [handle_audio, handle_audio_pending, chat, strTruthy_some c hc, *]

/-- If the chat call for the pending query raises but its error notice is
delivered, `handle_audio` still enables chat mode and pops the query: the
queued text is consumed and never retried. -/
lemma handle_audio_chatFail (env : AudioEnv) (ud : UserData) (hist : List Turn)
    (q t e : String)
    (hiq : ud.initial_query = some q) (hq : q ≠ "") (hcap : env.caption = none)
    (h1 : env.hasMedia = true) (h2 : env.getFile_ok = true)
    (hx : extension_map env.mime = some e) (h3 : env.download_ok = true)
    (h4 : env.sendStatus_ok = true) (ht : env.transcription = some t)
    (h5 : env.deleteStatus_ok = true) (h6 : env.sendQueryStatus_ok = true)
    (hcm : env.chatModel = none) (hce : env.sendChatErr_ok = true) :
    (handle_audio env ud hist).chatCalls = [q] ∧
    (handle_audio env ud hist).ud.chatting = true ∧
    (handle_audio env ud hist).ud.initial_query = none ∧
    (handle_audio env ud hist).hist = initialDialogue t ++ [mkUserQuery q] ∧
    (handle_audio env ud hist).outcome = .normal ∧
    (handle_audio env ud hist).sent =
      [msgReceived, msgProcessingQuery, msgQueryError] := by
  simp [handle_audio, handle_audio_pending, chat, audioChatErrJoin, audioFinish,
    strTruthy_some q hq, *]

/-- Successful full run of `handle_audio` with no caption and no queued
query: the global history becomes exactly the three-turn dialogue for the
transcript and chat mode is enabled, with no chat call. -/
lemma handle_audio_run_ready (env : AudioEnv) (ud : UserData) (hist : List Turn)
    (t e : String)
    (hiq : ud.initial_query = none) (hcap : env.caption = none)
    (h1 : env.hasMedia = true) (h2 : env.getFile_ok = true)
    (hx : extension_map env.mime = some e) (h3 : env.download_ok = true)
    (h4 : env.sendStatus_ok = true) (ht : env.transcription = some t)
    (h5 : env.deleteStatus_ok = true) (h9 : env.sendReady_ok = true) :
    (handle_audio env ud hist).chatCalls = [] ∧
    (handle_audio env ud hist).ud.chatting = true ∧
    (handle_audio env ud hist).hist = initialDialogue t ∧
    (handle_audio env ud hist).processed = true := by
  simp [handle_audio, handle_audio_pending, *]

/-- In chat mode, `handle_text` makes exactly one chat call whose model
input is the current shared history followed by this query's user turn. -/
lemma handle_text_chat_input (env : TextEnv) (ud : UserData) (hist : List Turn)
    (q : String) (hc : ud.chatting = true) (hsp : env.sendProcessing_ok = true) :
    (handle_text env ud hist q).chatCalls = [q] ∧
    (handle_text env ud hist q).modelInputs = [hist ++ [mkUserQuery q]] := by
  unfold handle_text
  rcases hcm : env.chatModel with _ | rt <;>
    split_ifs <;>
    simp_all [chat, textChatErrJoin]

/-- The dialogue written by `appHandleAudio` does not depend on which
identity performed the upload, when the two identities carry the same
per-user record: the history is a single shared value. -/
lemma appHandleAudio_hist_indep (env : AudioEnv) (s : AppState) (A B : Nat)
    (h : s.userData A = s.userData B) :
    (appHandleAudio env s A).1.hist = (appHandleAudio env s B).1.hist := by
  simp [appHandleAudio, h]

namespace Difflib

lemma insertDesc_perm (x : Score × String) (l : List (Score × String)) :
    (insertDesc x l).Perm (x :: l) := by
  induction l with
  | nil => exact List.Perm.refl _
  | cons y ys ih =>
    unfold insertDesc
    split
    · exact List.Perm.refl _
    · exact (List.Perm.cons y ih).trans (List.Perm.swap x y ys)

lemma sortDesc_perm (l : List (Score × String)) : (sortDesc l).Perm l := by
  induction l with
  | nil => exact List.Perm.refl _
  | cons x xs ih => exact (insertDesc_perm x (sortDesc xs)).trans (List.Perm.cons x ih)

lemma pairGe_total (x y : Score × String) : pairGe x y = true ∨ pairGe y x = true := by
  unfold pairGe fracLt fracEq
  rcases Nat.lt_trichotomy (y.1.1 * (x.1.2 + 1)) (x.1.1 * (y.1.2 + 1)) with h | h | h
  · left; simp [h]
  · by_cases hs : x.2 < y.2
    · right
      simp [h, lt_asymm hs]
    · left
      simp [h, hs]
  · right; simp [h]

lemma pairGe_trans (x y z : Score × String)
    (hxy : pairGe x y = true) (hyz : pairGe y z = true) : pairGe x z = true := by
  unfold pairGe fracLt fracEq at *
  simp only [Bool.or_eq_true, Bool.and_eq_true, Bool.not_eq_true', decide_eq_true_eq,
    decide_eq_false_iff_not] at hxy hyz ⊢
  rcases x with ⟨⟨xn, xd⟩, xs⟩
  rcases y with ⟨⟨yn, yd⟩, ys⟩
  rcases z with ⟨⟨zn, zd⟩, zs⟩
  simp only at hxy hyz ⊢
  rcases hxy with h1 | ⟨h1, hs1⟩ <;> rcases hyz with h2 | ⟨h2, hs2⟩
  · left
    have key : zn * (xd + 1) * (yd + 1) < xn * (zd + 1) * (yd + 1) := by
      calc zn * (xd + 1) * (yd + 1) = zn * (yd + 1) * (xd + 1) := by ring
      _ ≤ yn * (zd + 1) * (xd + 1) := mul_le_mul_right' (le_of_lt h2) _
      _ = yn * (xd + 1) * (zd + 1) := by ring
      _ < xn * (yd + 1) * (zd + 1) := mul_lt_mul_of_pos_right h1 (Nat.succ_pos zd)
      _ = xn * (zd + 1) * (yd + 1) := by ring
    exact lt_of_mul_lt_mul_right key (Nat.zero_le _)
  · left
    have key : zn * (xd + 1) * (yd + 1) < xn * (zd + 1) * (yd + 1) := by
      calc zn * (xd + 1) * (yd + 1) = zn * (yd + 1) * (xd + 1) := by ring
      _ = yn * (zd + 1) * (xd + 1) := by rw [← h2]
      _ = yn * (xd + 1) * (zd + 1) := by ring
      _ < xn * (yd + 1) * (zd + 1) := mul_lt_mul_of_pos_right h1 (Nat.succ_pos zd)
      _ = xn * (zd + 1) * (yd + 1) := by ring
    exact lt_of_mul_lt_mul_right key (Nat.zero_le _)
  · left
    have key : zn * (xd + 1) * (yd + 1) < xn * (zd + 1) * (yd + 1) := by
      calc zn * (xd + 1) * (yd + 1) = zn * (yd + 1) * (xd + 1) := by ring
      _ < yn * (zd + 1) * (xd + 1) := mul_lt_mul_of_pos_right h2 (Nat.succ_pos xd)
      _ = yn * (xd + 1) * (zd + 1) := by ring
      _ = xn * (yd + 1) * (zd + 1) := by rw [← h1]
      _ = xn * (zd + 1) * (yd + 1) := by ring
    exact lt_of_mul_lt_mul_right key (Nat.zero_le _)
  · right
    constructor
    · have key : xn * (zd + 1) * (yd + 1) = zn * (xd + 1) * (yd + 1) := by
        calc xn * (zd + 1) * (yd + 1) = xn * (yd + 1) * (zd + 1) := by ring
        _ = yn * (xd + 1) * (zd + 1) := by rw [h1]
        _ = yn * (zd + 1) * (xd + 1) := by ring
        _ = zn * (yd + 1) * (xd + 1) := by rw [h2]
        _ = zn * (xd + 1) * (yd + 1) := by ring
      exact mul_right_cancel₀ (Nat.succ_ne_zero yd) key
    · exact not_lt.mpr (le_trans (not_lt.mp hs2) (not_lt.mp hs1))

lemma pairwise_insertDesc (x : Score × String) (l : List (Score × String))
    (h : l.Pairwise (fun a b => pairGe a b = true)) :
    (insertDesc x l).Pairwise (fun a b => pairGe a b = true) := by
  induction l with
  | nil => simp [insertDesc]
  | cons y ys ih =>
    unfold insertDesc
    rcases List.pairwise_cons.mp h with ⟨hy, hys⟩
    split
    · rename_i hxy
      refine List.pairwise_cons.mpr ⟨?_, h⟩
      intro z hz
      rcases hz with _ | hz
      · exact hxy
      · exact pairGe_trans x y z hxy (hy z (by assumption))
    · rename_i hxy
      have hyx : pairGe y x = true := by
        rcases pairGe_total x y with ht | ht
        · exact absurd ht hxy
        · exact ht
      refine List.pairwise_cons.mpr ⟨?_, ih hys⟩
      intro z hz
      rcases List.mem_cons.mp ((insertDesc_perm x ys).mem_iff.mp hz) with rfl | hz'
      · exact hyx
      · exact hy z hz'

lemma pairwise_sortDesc (l : List (Score × String)) :
    (sortDesc l).Pairwise (fun a b => pairGe a b = true) := by
  induction l with
  | nil => simp [sortDesc]
  | cons x xs ih => exact pairwise_insertDesc x (sortDesc xs) ih

lemma scoreQ_le_scoreQ (p q : Score) (h : p.1 * (q.2 + 1) ≤ q.1 * (p.2 + 1)) :
    scoreQ p ≤ scoreQ q := by
  unfold scoreQ
  rw [div_le_div_iff₀ (by positivity) (by positivity)]
  exact_mod_cast h

lemma fracLe_scoreQ (p q : Score) (h : fracLe p q = true) : scoreQ p ≤ scoreQ q :=
  scoreQ_le_scoreQ p q (by simpa [fracLe] using h)

lemma pairGe_scoreQ (x y : Score × String) (h : pairGe x y = true) :
    scoreQ y.1 ≤ scoreQ x.1 := by
  unfold pairGe fracLt fracEq at h
  simp only [Bool.or_eq_true, Bool.and_eq_true, decide_eq_true_eq] at h
  rcases h with h | ⟨h, _⟩
  · exact scoreQ_le_scoreQ y.1 x.1 (le_of_lt h)
  · exact scoreQ_le_scoreQ y.1 x.1 (le_of_eq h.symm)

/-- Every returned suggestion belongs to the possibilities and clears the
cutoff on the true `ratio`, and its stored score is that ratio. -/
lemma mem_get_close_matches (word : String) (poss : List String) (n : Nat)
    (cutoff : Score) (x : String) (hx : x ∈ get_close_matches word poss n cutoff) :
    x ∈ poss ∧ fracLe cutoff (ratioPair x.toList word.toList) = true := by
  unfold get_close_matches nlargest at hx
  obtain ⟨p, hp, rfl⟩ := List.mem_map.mp hx
  have hp1 : p ∈ sortDesc _ := List.mem_of_mem_take hp
  have hp2 := (sortDesc_perm _).mem_iff.mp hp1
  obtain ⟨a, ha, hfa⟩ := List.mem_filterMap.mp hp2
  by_cases hcond : (fracLe cutoff (realQuickRatioPair a.toList word.toList) &&
      fracLe cutoff (quickRatioPair a.toList word.toList) &&
      fracLe cutoff (ratioPair a.toList word.toList)) = true
  · rw [if_pos hcond] at hfa
    cases hfa
    simp only [Bool.and_eq_true] at hcond
    exact ⟨ha, hcond.2⟩
  · rw [if_neg hcond] at hfa
    cases hfa

/-- The stored score of every pair surviving the filter is the ratio of
its word against the input. -/
lemma fst_get_close_matches (word : String) (poss : List String) (n : Nat)
    (cutoff : Score) (p : Score × String)
    (hp : p ∈ nlargest n (poss.filterMap (fun x =>
      if fracLe cutoff (realQuickRatioPair x.toList word.toList) &&
          fracLe cutoff (quickRatioPair x.toList word.toList) &&
          fracLe cutoff (ratioPair x.toList word.toList) then
        some (ratioPair x.toList word.toList, x)
      else none))) :
    p.1 = ratioPair p.2.toList word.toList := by
  unfold nlargest at hp
  have hp1 := List.mem_of_mem_take hp
  have hp2 := (sortDesc_perm _).mem_iff.mp hp1
  obtain ⟨a, _, hfa⟩ := List.mem_filterMap.mp hp2
  by_cases hcond : (fracLe cutoff (realQuickRatioPair a.toList word.toList) &&
      fracLe cutoff (quickRatioPair a.toList word.toList) &&
      fracLe cutoff (ratioPair a.toList word.toList)) = true
  · rw [if_pos hcond] at hfa
    cases hfa
    rfl
  · rw [if_neg hcond] at hfa
    cases hfa

lemma pairwise_nlargest_scoreQ (word : String) (n : Nat) (l : List (Score × String))
    (hfst : ∀ p ∈ nlargest n l, p.1 = ratioPair p.2.toList word.toList) :
    (nlargest n l).Pairwise
      (fun a b => scoreQ (ratioPair b.2.toList word.toList) ≤
        scoreQ (ratioPair a.2.toList word.toList)) := by
  have hsorted : (nlargest n l).Pairwise (fun a b => pairGe a b = true) :=
    List.Pairwise.sublist (List.take_sublist n (sortDesc l)) (pairwise_sortDesc l)
  refine hsorted.imp_of_mem ?_
  intro p q hp hq hpq
  have hq' := pairGe_scoreQ p q hpq
  rw [hfst p hp, hfst q hq] at hq'
  exact hq'

/-- The suggestions come out ordered by non-increasing ratio against the
input word (nearest first). -/
lemma sorted_get_close_matches (word : String) (poss : List String) (n : Nat)
    (cutoff : Score) :
    (get_close_matches word poss n cutoff).Pairwise
      (fun a b => scoreQ (ratioPair b.toList word.toList) ≤
        scoreQ (ratioPair a.toList word.toList)) := by
  unfold get_close_matches
  rw [List.pairwise_map]
  exact pairwise_nlargest_scoreQ word n _ (fst_get_close_matches word poss n cutoff)

lemma length_get_close_matches (word : String) (poss : List String) (n : Nat)
    (cutoff : Score) : (get_close_matches word poss n cutoff).length ≤ n := by
  unfold get_close_matches nlargest
  rw [List.length_map, List.length_take]
  exact min_le_left _ _

end Difflib

/-! ### Claim theorems -/

/-- C1: for every session in AWAITING_AUDIO, sending N freestanding text
messages followed by one audio message yields exactly one Chat Client
invocation whose query equals the N texts newline-joined in arrival
order; if the audio message carries a caption, the query equals the
caption exactly and the N queued texts are discarded (caption supersedes,
not concatenates). -/
theorem claim_C1 (tenv : TextEnv) (ud : UserData) (hist : List Turn)
    (texts : List String) (mime tr r e : String)
    (hne : texts ≠ []) (hall : ∀ q ∈ texts, q ≠ "")
    (hc : ud.chatting = false) (hiq : ud.initial_query = none)
    (hx : extension_map mime = some e) :
    (sendTexts tenv ud hist texts).2.2 = [] ∧
    (handle_audio
        { mime := mime, caption := none, transcription := some tr, chatModel := some r }
        (sendTexts tenv ud hist texts).1 (sendTexts tenv ud hist texts).2.1).chatCalls =
      [String.intercalate "\n" texts] ∧
    (∀ cap : String, cap ≠ "" →
      (handle_audio
          { mime := mime, caption := some cap, transcription := some tr, chatModel := some r }
          (sendTexts tenv ud hist texts).1 (sendTexts tenv ud hist texts).2.1).chatCalls =
        [cap] ∧
      (handle_audio
          { mime := mime, caption := some cap, transcription := some tr, chatModel := some r }
          (sendTexts tenv ud hist texts).1 (sendTexts tenv ud hist texts).2.1).ud.initial_query =
        none) := by
  rcases texts with _ | ⟨q, qs⟩
  · exact absurd rfl hne
  have hjoin := sendTexts_join tenv ud hist q qs hc hiq
  have hjne : String.intercalate "\n" (q :: qs) ≠ "" := by
    rw [intercalate_eq_foldl]
    exact foldl_join_ne qs q (hall q (List.mem_cons_self q qs))
  refine ⟨hjoin.2.2.2, ?_, ?_⟩
  · exact (handle_audio_run_query _ _ _ _ tr r e hjoin.2.1 hjne rfl rfl rfl hx rfl rfl
      rfl rfl rfl rfl rfl rfl).1
  · intro cap hcap
    have h := handle_audio_run_caption
      { mime := mime, caption := some cap, transcription := some tr, chatModel := some r }
      (sendTexts tenv ud hist (q :: qs)).1 (sendTexts tenv ud hist (q :: qs)).2.1
      cap tr r e rfl hcap rfl rfl hx rfl rfl rfl rfl rfl rfl rfl rfl
    exact ⟨h.1, h.2.2.1⟩

/-- C1 witness: a concrete two-text run through the queue followed by an
audio upload, in both the no-caption and the caption form. -/
theorem claim_C1_witness :
    (sendTexts {} {} [] ["hi", "there"]).2.2 = [] ∧
    (handle_audio
        { mime := "audio/ogg", caption := none, transcription := some "T", chatModel := some "R" }
        (sendTexts {} {} [] ["hi", "there"]).1 (sendTexts {} {} [] ["hi", "there"]).2.1).chatCalls =
      [String.intercalate "\n" ["hi", "there"]] ∧
    (∀ cap : String, cap ≠ "" →
      (handle_audio
          { mime := "audio/ogg", caption := some cap, transcription := some "T", chatModel := some "R" }
          (sendTexts {} {} [] ["hi", "there"]).1 (sendTexts {} {} [] ["hi", "there"]).2.1).chatCalls =
        [cap] ∧
      (handle_audio
          { mime := "audio/ogg", caption := some cap, transcription := some "T", chatModel := some "R" }
          (sendTexts {} {} [] ["hi", "there"]).1
          (sendTexts {} {} [] ["hi", "there"]).2.1).ud.initial_query = none) :=
  claim_C1 {} {} [] ["hi", "there"] "audio/ogg" "T" "R" ".ogg" (by decide)
    (by decide) rfl rfl rfl

/-- C2 counterexample: a failed Chat Client call does NOT leave the
dialogue unchanged — the USER turn appended before the model call
remains. -/
theorem claim_C2_cex : ¬((chat [] "hi" none).1 = []) := by decide

/-- C2 (amended): a successful Chat Client call grows the dialogue by
exactly 2 turns (one USER then one ASSISTANT appended at the end); a
failed call grows it by exactly 1 turn — the USER turn appended before
the model call remains (a partial append), it is not left unchanged. -/
theorem claim_C2 (hist : List Turn) (q r : String) :
    (chat hist q (some r)).1 = hist ++ [mkUserQuery q, ⟨.assistant, r⟩] ∧
    (chat hist q (some r)).2.1 = some r ∧
    (chat hist q none).1 = hist ++ [mkUserQuery q] ∧
    (chat hist q none).2.1 = none := by
  simp [chat]

/-- C3 counterexample: the explicit reset does NOT clear the dialogue —
`new` only clears `context.user_data`, while the process-global
`conversation_history` keeps its turns. -/
theorem claim_C3_cex : ¬((new_handler { chatting := true } [⟨.system, "s"⟩]).2 = []) := by
  decide

/-- C3 (amended): the explicit reset returns the per-user session to
phase AWAITING_AUDIO with no pending query (and no notice refs), but
leaves the shared dialogue unchanged; the dialogue is only reinitialized
at the next successful transcription. -/
theorem claim_C3 (ud : UserData) (hist : List Turn) (t : String) :
    (new_handler ud hist).1.chatting = false ∧
    (new_handler ud hist).1.initial_query = none ∧
    (new_handler ud hist).1.warning_msg_id = none ∧
    (new_handler ud hist).1.unsupported_warning_msg_id = none ∧
    (new_handler ud hist).2 = hist ∧
    (prepare_conversation (some t) hist).1 = initialDialogue t := by
  simp [new_handler, prepare_conversation]

/-- C4: the phase transitions to CHATTING only after a transcription
completes successfully; at a successful transcription the dialogue is
reset to exactly the three turns SYSTEM, USER(transcript context),
ASSISTANT(greeting), and the final dialogue extends it; if transcription
fails the phase stays AWAITING_AUDIO and the semantic session state is
unchanged; no other handler changes the phase. -/
theorem claim_C4 :
    (∀ (t : String) (hist : List Turn), prepare_conversation (some t) hist =
      ([⟨.system, system_message⟩, transcriptTurn t, ⟨.assistant, greeting_message⟩], true)) ∧
    (∀ (env : AudioEnv) (ud : UserData) (hist : List Turn), env.transcription = none →
      (handle_audio env ud hist).ud.chatting = ud.chatting ∧
      (handle_audio env ud hist).ud.initial_query = ud.initial_query ∧
      (handle_audio env ud hist).hist = hist) ∧
    (∀ (env : AudioEnv) (ud : UserData) (hist : List Turn),
      (handle_audio env ud hist).ud.chatting = true →
      ud.chatting = true ∨ ∃ t, env.transcription = some t ∧
        ∃ rest, (handle_audio env ud hist).hist = initialDialogue t ++ rest) ∧
    (∀ (env : TextEnv) (ud : UserData) (hist : List Turn) (q : String),
      (handle_text env ud hist q).ud.chatting = ud.chatting) ∧
    (∀ (env : VoiceEnv) (ud : UserData) (hist : List Turn),
      (handle_voice_query env ud hist).ud = ud) :=
  ⟨fun t hist => by simp [prepare_conversation, initialDialogue],
    handle_audio_trFail, handle_audio_chatting, handle_text_chatting,
    handle_voice_query_ud⟩

/-- C4 witness: a failed transcription on a session with a queued query
leaves phase, pending query and dialogue unchanged. -/
theorem claim_C4_witness :
    (handle_audio { mime := "audio/ogg", transcription := none }
        { initial_query := some "hi" } []).ud.chatting =
      ({ initial_query := some "hi" } : UserData).chatting ∧
    (handle_audio { mime := "audio/ogg", transcription := none }
        { initial_query := some "hi" } []).ud.initial_query =
      ({ initial_query := some "hi" } : UserData).initial_query ∧
    (handle_audio { mime := "audio/ogg", transcription := none }
        { initial_query := some "hi" } []).hist = [] :=
  claim_C4.2.1 { mime := "audio/ogg", transcription := none }
    { initial_query := some "hi" } [] rfl

/-- C5 counterexample: in phase CHATTING the dispatcher routes any
audio/voice event to `handle_voice_query`, which performs no MIME check:
an event whose MIME type `audio/flac` is outside the fixed map still
reaches the Transcription Client. -/
theorem claim_C5_cex :
    extension_map "audio/flac" = none ∧
    (combined_audio_handler { mime := "audio/flac", transcription := some "T" }
        { transcription := some "vq", chatModel := some "R" }
        { chatting := true } []).transcribeCalls = 1 := by
  decide

/-- C5 (amended): in AWAITING_AUDIO (the interview-audio path) an
unsupported MIME type never invokes the Transcription Client and never
changes the phase; in CHATTING the voice-query path performs no MIME
validation and invokes the Transcription Client regardless of the MIME
type — though it, too, never changes the phase. -/
theorem claim_C5 :
    (∀ (env : AudioEnv) (ud : UserData) (hist : List Turn),
      extension_map env.mime = none →
      (handle_audio env ud hist).transcribeCalls = 0 ∧
      (handle_audio env ud hist).ud.chatting = ud.chatting) ∧
    (∀ (env : VoiceEnv) (ud : UserData) (hist : List Turn),
      (handle_voice_query env ud hist).ud = ud) ∧
    (∀ (tr : Option String) (ud : UserData) (hist : List Turn),
      (handle_voice_query { transcription := tr } ud hist).transcribeCalls = 1) := by
  refine ⟨fun env ud hist h => ⟨(handle_audio_mimeFail env ud hist h).1,
    (handle_audio_mimeFail env ud hist h).2.1⟩, handle_voice_query_ud, ?_⟩
  intro tr ud hist
  rcases tr with _ | t <;>
    simp [handle_voice_query, chat, voiceFail_transcribeCalls,
      voiceChatErrJoin_transcribeCalls]

/-- C5 witness: a concrete unsupported MIME type in the interview path
never transcribes and never flips the phase. -/
theorem claim_C5_witness :
    (handle_audio { mime := "video/mp4", transcription := some "T" }
        {} []).transcribeCalls = 0 ∧
    (handle_audio { mime := "video/mp4", transcription := some "T" }
        {} []).ud.chatting = ({} : UserData).chatting :=
  claim_C5.1 { mime := "video/mp4", transcription := some "T" } {} [] rfl

/-- C6 counterexample: the delete of the processing-status notice
(`app.py` line 238) is not individually guarded; its failure is not
swallowed silently — the user receives a generic error notice — and the
chatting transition that a successful run would have made does not
happen. -/
theorem claim_C6_cex :
    (handle_audio
        { mime := "audio/ogg", transcription := some "T", chatModel := some "R",
          deleteStatus_ok := false }
        {} []).sent = [msgReceived, msgAudioError] ∧
    (handle_audio
        { mime := "audio/ogg", transcription := some "T", chatModel := some "R",
          deleteStatus_ok := false }
        {} []).ud.chatting = false ∧
    (handle_audio
        { mime := "audio/ogg", transcription := some "T", chatModel := some "R",
          deleteStatus_ok := false }
        {} []).outcome = .normal := by
  decide

/-- C6 (amended): the guarded cleanup transport failures — deleting the
unsupported-file warning, deleting the queued-query warning, editing the
waiting notice — are swallowed silently (the user-visible result is
unchanged); but the unguarded delete of the processing-status notice is
caught only at the handler boundary: it surfaces a generic error notice
and prevents the chatting transition that would otherwise occur. -/
theorem claim_C6 :
    (∀ (env : AudioEnv) (ud : UserData) (hist : List Turn) (b₁ c₁ b₂ c₂ : Bool),
      observables (handle_audio
        { env with deleteUnsupWarn_ok := b₁, deleteWarn_ok := c₁ } ud hist) =
      observables (handle_audio
        { env with deleteUnsupWarn_ok := b₂, deleteWarn_ok := c₂ } ud hist)) ∧
    (∀ (env : TextEnv) (ud : UserData) (hist : List Turn) (q : String) (b₁ b₂ : Bool),
      observables (handle_text { env with editWarning_ok := b₁ } ud hist q) =
      observables (handle_text { env with editWarning_ok := b₂ } ud hist q)) ∧
    (∀ (env : AudioEnv) (ud : UserData) (hist : List Turn) (t e : String),
      env.hasMedia = true → env.getFile_ok = true →
      extension_map env.mime = some e → env.download_ok = true →
      env.sendStatus_ok = true → env.transcription = some t →
      env.deleteStatus_ok = false → env.sendAudioErr_ok = true →
      (handle_audio env ud hist).outcome = .normal ∧
      (handle_audio env ud hist).sent = [msgReceived, msgAudioError] ∧
      (handle_audio env ud hist).ud.chatting = ud.chatting ∧
      (handle_audio env ud hist).processed = false) :=
  ⟨handle_audio_guard, handle_text_guard,
    fun env ud hist t e h1 h2 hx h3 h4 ht h5 h6 =>
      handle_audio_deleteStatus_fail env ud hist t e h1 h2 hx h3 h4 ht h5 h6⟩

/-- C6 witness: a concrete run in which the status-notice delete fails
after a successful transcription. -/
theorem claim_C6_witness :
    (handle_audio
        { mime := "audio/wav", transcription := some "T", deleteStatus_ok := false }
        { chatting := false } []).outcome = .normal ∧
    (handle_audio
        { mime := "audio/wav", transcription := some "T", deleteStatus_ok := false }
        { chatting := false } []).sent = [msgReceived, msgAudioError] ∧
    (handle_audio
        { mime := "audio/wav", transcription := some "T", deleteStatus_ok := false }
        { chatting := false } []).ud.chatting =
      ({ chatting := false } : UserData).chatting ∧
    (handle_audio
        { mime := "audio/wav", transcription := some "T", deleteStatus_ok := false }
        { chatting := false } []).processed = false :=
  claim_C6.2.2 { mime := "audio/wav", transcription := some "T", deleteStatus_ok := false }
    { chatting := false } [] "T" ".wav" rfl rfl rfl rfl rfl rfl rfl rfl

/-- C7 counterexample: in the voice-query path the temp file is deleted
even when processing failed (transcription raised and an error notice was
sent), contradicting leak-on-failure for that path. -/
theorem claim_C7_cex :
    (handle_voice_query { transcription := none } { chatting := true } []).fileCreated = true ∧
    (handle_voice_query { transcription := none } { chatting := true } []).sent =
      [msgVoiceError] ∧
    (handle_voice_query { transcription := none } { chatting := true } []).fileOnDisk =
      false := by
  decide

/-- C7 (amended): in the interview-audio path the temp file is created
before the network call can be reached, deleted after successful
processing, and left on disk whenever processing failed; the voice-query
path instead deletes its temp file unconditionally in cleanup, success or
failure alike. -/
theorem claim_C7 :
    (∀ (env : AudioEnv) (ud : UserData) (hist : List Turn),
      1 ≤ (handle_audio env ud hist).transcribeCalls →
      (handle_audio env ud hist).fileCreated = true) ∧
    (∀ (env : AudioEnv) (ud : UserData) (hist : List Turn),
      (handle_audio env ud hist).fileOnDisk =
        ((handle_audio env ud hist).fileCreated &&
          !((handle_audio env ud hist).processed && env.remove_ok))) ∧
    (∀ (env : VoiceEnv) (ud : UserData) (hist : List Turn), env.hasMedia = true →
      (handle_voice_query env ud hist).fileCreated = true ∧
      (handle_voice_query env ud hist).fileOnDisk = !env.remove_ok) :=
  ⟨handle_audio_transcribe_file, handle_audio_file, handle_voice_query_file⟩

/-- C7 witness: a concrete failed voice-query run still created the file
and still ends with it removed. -/
theorem claim_C7_witness :
    (handle_voice_query { transcription := none, chatModel := none }
        { chatting := true } []).fileCreated = true ∧
    (handle_voice_query { transcription := none, chatModel := none }
        { chatting := true } []).fileOnDisk =
      !({ transcription := none, chatModel := none } : VoiceEnv).remove_ok :=
  claim_C7.2.2 { transcription := none, chatModel := none } { chatting := true } [] rfl

/-- C8: the unknown-command suggestion returns at most 3 known commands,
each from the fixed set with similarity at least the 0.6 cutoff against
the input, ordered nearest first; `"hlep"` yields exactly `["help"]` and
`"xyz123"` yields exactly `[]`. -/
theorem claim_C8 :
    (∀ w : String,
      (unknown_command_suggestions w).length ≤ 3 ∧
      (∀ x ∈ unknown_command_suggestions w, x ∈ AVAILABLE_COMMANDS ∧
        (3 : ℚ) / 5 ≤ Difflib.ratioOf x.toList w.toList) ∧
      (unknown_command_suggestions w).Pairwise
        (fun a b => Difflib.ratioOf b.toList w.toList ≤
          Difflib.ratioOf a.toList w.toList)) ∧
    unknown_command_suggestions "hlep" = ["help"] ∧
    unknown_command_suggestions "xyz123" = [] := by
  refine ⟨fun w => ⟨?_, ?_, ?_⟩, by decide, by decide⟩
  · exact Difflib.length_get_close_matches w AVAILABLE_COMMANDS 3 cutoffScore
  · intro x hx
    obtain ⟨hmem, hcut⟩ :=
      Difflib.mem_get_close_matches w AVAILABLE_COMMANDS 3 cutoffScore x hx
    refine ⟨hmem, ?_⟩
    have h := Difflib.fracLe_scoreQ cutoffScore _ hcut
    have hc : Difflib.scoreQ cutoffScore = (3 : ℚ) / 5 := by
      norm_num [Difflib.scoreQ, cutoffScore]
    rw [hc] at h
    exact h
  · have h := Difflib.sorted_get_close_matches w AVAILABLE_COMMANDS 3 cutoffScore
    simpa [Difflib.ratioOf] using h

/-- C8 witness: the suggestion `"help"` for input `"hlep"` is a known
command whose ratio clears the cutoff. -/
theorem claim_C8_witness :
    "help" ∈ AVAILABLE_COMMANDS ∧
    (3 : ℚ) / 5 ≤ Difflib.ratioOf "help".toList "hlep".toList :=
  (claim_C8.1 "hlep").2.1 "help" (by decide)

/-- C9: the dialogue history is one process-global value shared by all
identities: which identity uploads does not change the resulting shared
dialogue (given equal per-user records), and after identity A's
successful upload, identity B's next chat call sends the language model
exactly the dialogue A's upload wrote. -/
theorem claim_C9 :
    (∀ (env : AudioEnv) (s : AppState) (A B : Nat), s.userData A = s.userData B →
      (appHandleAudio env s A).1.hist = (appHandleAudio env s B).1.hist) ∧
    (∀ (s : AppState) (A B : Nat) (q t r : String), A ≠ B →
      (s.userData A).chatting = false → (s.userData A).initial_query = none →
      (s.userData B).chatting = true →
      ((appHandleText { chatModel := some r }
          (appHandleAudio { mime := "audio/ogg", transcription := some t } s A).1
          B q).2).modelInputs =
        [initialDialogue t ++ [mkUserQuery q]]) := by
  refine ⟨appHandleAudio_hist_indep, ?_⟩
  intro s A B q t r hAB hA1 hA2 hB
  have hrun := handle_audio_run_ready { mime := "audio/ogg", transcription := some t }
    (s.userData A) s.hist t ".ogg" hA2 rfl rfl rfl rfl rfl rfl rfl rfl rfl
  have hud : ((appHandleAudio { mime := "audio/ogg", transcription := some t } s A).1).userData B =
      s.userData B := by
    simp [appHandleAudio, Function.update_noteq (Ne.symm hAB)]
  have hhist : ((appHandleAudio { mime := "audio/ogg", transcription := some t } s A).1).hist =
      initialDialogue t := by
    simpa [appHandleAudio] using hrun.2.2.1
  have hinput := handle_text_chat_input { chatModel := some r }
    ((appHandleAudio { mime := "audio/ogg", transcription := some t } s A).1.userData B)
    ((appHandleAudio { mime := "audio/ogg", transcription := some t } s A).1.hist)
    q (by rw [hud]; exact hB) rfl
  simpa [appHandleText, hhist] using hinput.2

/-- C9 witness: concrete identities 0 and 1 — 0 uploads, 1's next chat
call reads the dialogue 0 wrote. -/
theorem claim_C9_witness :
    ((appHandleText { chatModel := some "R" }
        (appHandleAudio { mime := "audio/ogg", transcription := some "T" }
          { userData := fun u => if u = 1 then { chatting := true } else {}, hist := [] }
          0).1
        1 "q").2).modelInputs =
      [initialDialogue "T" ++ [mkUserQuery "q"]] :=
  claim_C9.2 { userData := fun u => if u = 1 then { chatting := true } else {}, hist := [] }
    0 1 "q" "T" "R" (by decide) rfl rfl rfl

/-- C10: after a successful transcription, the pending query is consumed
and the phase set to CHATTING even when the Chat Client call made for it
fails: exactly one chat attempt happens, the queued text is removed from
the session and never retried, and the dialogue keeps only the dangling
USER turn. -/
theorem claim_C10 (env : AudioEnv) (ud : UserData) (hist : List Turn)
    (q t e : String)
    (hiq : ud.initial_query = some q) (hq : q ≠ "") (hcap : env.caption = none)
    (h1 : env.hasMedia = true) (h2 : env.getFile_ok = true)
    (hx : extension_map env.mime = some e) (h3 : env.download_ok = true)
    (h4 : env.sendStatus_ok = true) (ht : env.transcription = some t)
    (h5 : env.deleteStatus_ok = true) (h6 : env.sendQueryStatus_ok = true)
    (hcm : env.chatModel = none) (hce : env.sendChatErr_ok = true) :
    (handle_audio env ud hist).chatCalls = [q] ∧
    (handle_audio env ud hist).ud.chatting = true ∧
    (handle_audio env ud hist).ud.initial_query = none ∧
    (handle_audio env ud hist).hist = initialDialogue t ++ [mkUserQuery q] ∧
    (handle_audio env ud hist).outcome = .normal ∧
    (handle_audio env ud hist).sent = [msgReceived, msgProcessingQuery, msgQueryError] :=
  handle_audio_chatFail env ud hist q t e hiq hq hcap h1 h2 hx h3 h4 ht h5 h6 hcm hce

/-- C10 witness: a concrete run with queued query "hi", transcription
"T", and a failing chat call. -/
theorem claim_C10_witness :
    (handle_audio { mime := "audio/ogg", transcription := some "T", chatModel := none }
        { initial_query := some "hi" } []).chatCalls = ["hi"] ∧
    (handle_audio { mime := "audio/ogg", transcription := some "T", chatModel := none }
        { initial_query := some "hi" } []).ud.chatting = true ∧
    (handle_audio { mime := "audio/ogg", transcription := some "T", chatModel := none }
        { initial_query := some "hi" } []).ud.initial_query = none ∧
    (handle_audio { mime := "audio/ogg", transcription := some "T", chatModel := none }
        { initial_query := some "hi" } []).hist =
      initialDialogue "T" ++ [mkUserQuery "hi"] ∧
    (handle_audio { mime := "audio/ogg", transcription := some "T", chatModel := none }
        { initial_query := some "hi" } []).outcome = .normal ∧
    (handle_audio { mime := "audio/ogg", transcription := some "T", chatModel := none }
        { initial_query := some "hi" } []).sent =
      [msgReceived, msgProcessingQuery, msgQueryError] :=
  claim_C10 { mime := "audio/ogg", transcription := some "T", chatModel := none }
    { initial_query := some "hi" } [] "hi" "T" ".ogg" rfl (by decide) rfl rfl rfl rfl
    rfl rfl rfl rfl rfl rfl rfl

end UsInterviewer
